import Mathlib

/-!
Shallow embedding of the client logic of the Catalogo repository:
the artifact submission workflow of
src/frontend/src/pages/Catalog/CreateArtifact.jsx and the login /
post-authentication redirect logic of
src/frontend/src/pages/Login/Login.jsx, together with proofs of the
specified properties.
-/

namespace Catalogo

/-- A binary file reference (a JS File object), identified by its name. -/
structure FileRef where
  name : String
deriving DecidableEq, Repr

/-- A single-file slot of the draft: in the JS state it is either an actual
File object or the empty placeholder object defined in the initial state
of newObjectAttributes (CreateArtifact.jsx lines 35-51). -/
inductive Slot where
  | file (f : FileRef)
  | placeholder
deriving DecidableEq, Repr

/-- The JS test `slot instanceof File`: true exactly on actual files. -/
def Slot.isFile : Slot → Bool
  | Slot.file _ => true
  | Slot.placeholder => false

/-- A metadata entry id/value pair as delivered by the metadata endpoint
and stored in the draft for shape, culture and tags. -/
structure MetadataOption where
  id : String
  value : String
deriving DecidableEq, Repr

/-- The draft state newObjectAttributes of CreateArtifact.jsx (lines 35-51). -/
structure ArtifactDraft where
  object : Slot
  texture : Slot
  material : Slot
  thumbnail : Slot
  images : List FileRef
  description : String
  shape : MetadataOption
  culture : MetadataOption
  tags : List MetadataOption
deriving DecidableEq, Repr

/-- The initial draft created at form mount (CreateArtifact.jsx lines 35-51):
every slot is the empty placeholder object, images and tags are empty,
description is empty and shape/culture have empty id and value. -/
def initialDraft : ArtifactDraft :=
  { object := Slot.placeholder
    texture := Slot.placeholder
    material := Slot.placeholder
    thumbnail := Slot.placeholder
    images := []
    description := ""
    shape := { id := "", value := "" }
    culture := { id := "", value := "" }
    tags := [] }

/-- The body of the useEffect of CreateArtifact.jsx lines 65-73: the model
is required iff any of object, texture, material is an actual File. -/
def recomputeModelRequired (d : ArtifactDraft) : Bool :=
  d.object.isFile || d.texture.isFile || d.material.isFile

/-- The pair of React states (newObjectAttributes, modelRequired). -/
structure FormState where
  draft : ArtifactDraft
  modelRequired : Bool
deriving DecidableEq, Repr

/-- The state at form mount: initial draft, modelRequired initialised to
false (useState(false), CreateArtifact.jsx line 63). -/
def initialFormState : FormState :=
  { draft := initialDraft, modelRequired := false }

/-- One user edit of a draft field, as performed by handleInputChange or by
the upload buttons via setNewObjectAttributes: each mutation replaces one
field of the draft. -/
inductive DraftMutation where
  | setObject (v : Slot)
  | setTexture (v : Slot)
  | setMaterial (v : Slot)
  | setThumbnail (v : Slot)
  | setImages (v : List FileRef)
  | setDescription (s : String)
  | setShape (m : MetadataOption)
  | setCulture (m : MetadataOption)
  | setTags (l : List MetadataOption)
deriving DecidableEq, Repr

/-- Applying one mutation to the draft (the object spread of
handleInputChange: all other fields are kept). -/
def applyMutation (d : ArtifactDraft) : DraftMutation → ArtifactDraft
  | DraftMutation.setObject v => { d with object := v }
  | DraftMutation.setTexture v => { d with texture := v }
  | DraftMutation.setMaterial v => { d with material := v }
  | DraftMutation.setThumbnail v => { d with thumbnail := v }
  | DraftMutation.setImages v => { d with images := v }
  | DraftMutation.setDescription s => { d with description := s }
  | DraftMutation.setShape m => { d with shape := m }
  | DraftMutation.setCulture m => { d with culture := m }
  | DraftMutation.setTags l => { d with tags := l }

/-- One step of the form: the draft is mutated and the reactive useEffect
(CreateArtifact.jsx lines 65-73) re-derives modelRequired from the three
model-part slots.  modelRequired is never written anywhere else. -/
def stepForm (s : FormState) (m : DraftMutation) : FormState :=
  let d := applyMutation s.draft m
  { draft := d, modelRequired := recomputeModelRequired d }

/-- The local pre-flight validation errors of handleSubmit. -/
inductive ValidationError where
  | IncompleteModelSet
  | NoAssetProvided
deriving DecidableEq, Repr

/-- Alert shown when model files are incomplete (CreateArtifact.jsx line 122). -/
def incompleteModelMsg : String :=
  "Para subir un objeto 3d, se deben subir los tres archivos requeridos"

/-- Alert shown when no model and no images are given (line 126). -/
def noImagesMsg : String :=
  "Si no se sube un modelo 3d, se deben subir imágenes"

/-- Alert shown on successful creation (line 160). -/
def successMsg : String := "¡Objeto creado con éxito!"

/-- The validation gate at the top of handleSubmit (CreateArtifact.jsx lines
116-128): with modelRequired set, all three model slots must be actual
files, else IncompleteModelSet; with modelRequired unset, at least one
image is required, else NoAssetProvided; otherwise the gate passes. -/
def submissionGate (modelRequired : Bool) (d : ArtifactDraft) :
    Option ValidationError :=
  if modelRequired then
    if !d.object.isFile || !d.texture.isFile || !d.material.isFile then
      some ValidationError.IncompleteModelSet
    else
      none
  else if d.images.length = 0 then
    some ValidationError.NoAssetProvided
  else
    none

/-- A value appended to the FormData: an actual file, the stringified empty
placeholder object, or a text value. -/
inductive FormValue where
  | fileVal (f : FileRef)
  | placeholderVal
  | textVal (s : String)
deriving DecidableEq, Repr

/-- What formData.append receives for a slot: the File itself, or the
placeholder object when the slot was never populated. -/
def slotValue : Slot → FormValue
  | Slot.file f => FormValue.fileVal f
  | Slot.placeholder => FormValue.placeholderVal

/-- The FormData assembly of handleSubmit (CreateArtifact.jsx lines 130-143),
as the ordered list of appended (field name, value) entries. -/
def assemble (d : ArtifactDraft) : List (String × FormValue) :=
  [("model[new_object]", slotValue d.object),
   ("model[new_texture]", slotValue d.texture),
   ("model[new_material]", slotValue d.material),
   ("new_thumbnail", slotValue d.thumbnail)]
  ++ d.images.map (fun image => ("new_images", FormValue.fileVal image))
  ++ [("description", FormValue.textVal d.description),
      ("id_shape", FormValue.textVal d.shape.id),
      ("id_culture", FormValue.textVal d.culture.id)]
  ++ d.tags.map (fun tag => ("id_tags", FormValue.textVal tag.id))

/-- Modelled from the spec: the field-name emission order the specification
guarantees for the multipart payload, used only to compare against the
order the code's assembly actually produces. -/
def assembleKeySpec (d : ArtifactDraft) : List String :=
  ["model[new_object]", "model[new_texture]", "model[new_material]",
   "new_thumbnail"]
  ++ d.images.map (fun _ => "new_images")
  ++ ["description", "id_shape", "id_culture"]
  ++ d.tags.map (fun _ => "id_tags")

/-- The sublist of multipart entries carrying a given field name, in order. -/
def entriesFor (l : List (String × FormValue)) (k : String) :
    List (String × FormValue) :=
  l.filter (fun p => p.1 == k)

/-- How many entries of the multipart body carry a given field name. -/
def countKey (l : List (String × FormValue)) (k : String) : Nat :=
  (entriesFor l k).length

/-- Outcome of the upload POST as seen by the client: a 2xx response with
the new artifact id, a non-2xx response with a detail message, or a
transport-level failure (the fetch promise rejects). -/
inductive UploadResult where
  | success (newId : String)
  | rejection (detail : String)
  | transportFailure
deriving DecidableEq, Repr

/-- Everything observable about one run of CreateArtifact's handleSubmit:
the draft state afterwards, the alerts raised, the navigation performed,
the multipart request body sent (none when validation stopped the submit),
and whether an error escaped the handler uncaught. -/
structure SubmitOutcome where
  draft : ArtifactDraft
  alerts : List String
  navigation : Option String
  request : Option (List (String × FormValue))
  uncaught : Bool
deriving DecidableEq, Repr

/-- The upload part of handleSubmit (CreateArtifact.jsx lines 145-166): the
assembled body is POSTed; a 2xx response alerts success and navigates to
the new artifact's detail view; a non-2xx response throws Error(data.detail)
which the attached catch turns into an alert of that detail; a transport
failure rejects the fetch promise itself, for which no handler is attached,
so no alert is raised and the rejection escapes handleSubmit.  No branch
writes newObjectAttributes. -/
def createUpload (d : ArtifactDraft) : UploadResult → SubmitOutcome
  | UploadResult.success newId =>
      { draft := d, alerts := [successMsg],
        navigation := some ("/catalog/" ++ newId),
        request := some (assemble d), uncaught := false }
  | UploadResult.rejection detail =>
      { draft := d, alerts := [detail], navigation := none,
        request := some (assemble d), uncaught := false }
  | UploadResult.transportFailure =>
      { draft := d, alerts := [], navigation := none,
        request := some (assemble d), uncaught := true }

/-- The whole of handleSubmit (CreateArtifact.jsx lines 114-167): the gate
of lines 116-128 either raises exactly the alert belonging to its error and
returns without sending anything, or the body is assembled and uploaded. -/
def createSubmit (modelRequired : Bool) (d : ArtifactDraft)
    (resp : UploadResult) : SubmitOutcome :=
  match submissionGate modelRequired d with
  | some ValidationError.IncompleteModelSet =>
      { draft := d, alerts := [incompleteModelMsg], navigation := none,
        request := none, uncaught := false }
  | some ValidationError.NoAssetProvided =>
      { draft := d, alerts := [noImagesMsg], navigation := none,
        request := none, uncaught := false }
  | none => createUpload d resp

/-! Login.jsx: credential submission and post-login redirect. -/

/-- The login form state formValues (Login.jsx lines 25-28). -/
structure LoginForm where
  username : String
  password : String
deriving DecidableEq, Repr

/-- A recorded navigation history entry (location.state.from). -/
structure LocationRef where
  pathname : String
deriving DecidableEq, Repr

/-- A navigation performed through the router: a plain navigate(route) or a
navigate(route, replace) that replaces the current history entry. -/
inductive NavAction where
  | push (route : String)
  | replace (route : String)
deriving DecidableEq, Repr

/-- The route a navigation action targets. -/
def NavAction.route : NavAction → String
  | NavAction.push r => r
  | NavAction.replace r => r

/-- Whether the second list occurs at the start of the first argument list. -/
def startsWithChars : List Char → List Char → Bool
  | [], _ => true
  | _ :: _, [] => false
  | a :: as, b :: bs => a == b && startsWithChars as bs

/-- Whether the needle occurs contiguously anywhere in the haystack. -/
def hasSegmentChars (needle : List Char) : List Char → Bool
  | [] => startsWithChars needle []
  | b :: bs => startsWithChars needle (b :: bs) || hasSegmentChars needle bs

/-- The JS test haystack.includes(needle): substring containment. -/
def includesSegment (haystack needle : String) : Bool :=
  hasSegmentChars needle.data haystack.data

/-- The redirect resolution of Login.jsx lines 82-88.  from defaults to the
string "/" when no location was recorded, in which case the comparison
from !== "/" fails and the else branch runs navigate("/", replace).  When a
location object was recorded, from !== "/" holds, and if its pathname
contains "/reset-password" the code runs navigate("/") (a plain push);
otherwise it runs navigate(from, replace). -/
def resolveDestination : Option LocationRef → NavAction
  | none => NavAction.replace "/"
  | some loc =>
      if includesSegment loc.pathname "/reset-password" then
        NavAction.push "/"
      else
        NavAction.replace loc.pathname

/-- The token cleanup data.token.replace of Login.jsx line 79: every double
quote character is removed. -/
def stripQuotes (s : String) : String :=
  String.mk (s.data.filter (fun c => c != '"'))

/-- Outcome of the credential POST as seen by the client. -/
inductive AuthResult where
  | success (token : String)
  | failure (detail : String)
  | transportFailure
deriving DecidableEq, Repr

/-- Everything observable about one run of Login's handleSubmit. -/
structure LoginOutcome where
  form : LoginForm
  alerts : List String
  storedToken : Option String
  navigation : Option NavAction
deriving DecidableEq, Repr

/-- Alert shown when the login fetch itself fails (Login.jsx line 91). -/
def authErrorMsg : String := "Ha ocurrido un error durante la autenticación"

/-- The whole of Login's handleSubmit (Login.jsx lines 59-93): a non-ok
response alerts the server's detail and returns; a transport failure is
caught by the surrounding try/catch and alerts a generic message; a success
stores the de-quoted token and navigates through the redirect resolution of
lines 82-88.  No branch writes formValues. -/
def loginSubmit (form : LoginForm) (fromLoc : Option LocationRef) :
    AuthResult → LoginOutcome
  | AuthResult.failure detail =>
      { form := form, alerts := [detail], storedToken := none,
        navigation := none }
  | AuthResult.transportFailure =>
      { form := form, alerts := [authErrorMsg], storedToken := none,
        navigation := none }
  | AuthResult.success tok =>
      { form := form, alerts := [], storedToken := some (stripQuotes tok),
        navigation := some (resolveDestination fromLoc) }

/-! Concrete drafts used by the witnesses. -/

/-- A draft holding an object file and a texture file but no material file. -/
def twoFileDraft : ArtifactDraft :=
  { initialDraft with
      object := Slot.file { name := "piece.obj" }
      texture := Slot.file { name := "piece.jpg" } }

/-- A gate-passing draft with no model files, two images, three tags and the
required metadata filled in. -/
def sampleImageDraft : ArtifactDraft :=
  { initialDraft with
      images := [{ name := "a.jpg" }, { name := "b.jpg" }]
      description := "A pot"
      shape := { id := "3", value := "Bowl" }
      culture := { id := "5", value := "Inca" }
      tags := [{ id := "7", value := "clay" }, { id := "8", value := "painted" },
               { id := "9", value := "ritual" }] }

/-- A draft holding one model file and one image: images present, model set
incomplete. -/
def mixedDraft : ArtifactDraft :=
  { initialDraft with
      object := Slot.file { name := "piece.obj" }
      images := [{ name := "i.jpg" }] }

/-- A gate-passing draft whose upload may fail: one image, no model files. -/
def retryDraft : ArtifactDraft :=
  { initialDraft with images := [{ name := "a.jpg" }], description := "A pot" }

/-! Helper lemmas about the multipart assembly. -/

theorem map_fst_keyed {α : Type} (k : String) (f : α → FormValue) (l : List α) :
    (l.map (fun a => (k, f a))).map Prod.fst = l.map (fun _ => k) := by
  induction l with
  | nil => rfl
  | cons a l ih => simp only [List.map_cons, ih]

theorem filter_keyed_map_ne {α : Type} (k q : String) (f : α → FormValue) (l : List α)
    (hk : (k == q) = false) :
    (l.map (fun a => (k, f a))).filter (fun p => p.1 == q) = [] := by
  induction l with
  | nil => rfl
  | cons a l ih => simp [List.filter_cons, hk, ih]

theorem filter_keyed_map_self {α : Type} (k : String) (f : α → FormValue) (l : List α) :
    (l.map (fun a => (k, f a))).filter (fun p => p.1 == k) = l.map (fun a => (k, f a)) := by
  induction l with
  | nil => rfl
  | cons a l ih => simp [List.filter_cons, ih]

theorem entriesFor_assemble_images (d : ArtifactDraft) :
    entriesFor (assemble d) "new_images" =
      d.images.map (fun image => ("new_images", FormValue.fileVal image)) := by
  simp only [entriesFor, assemble, List.filter_append]
  rw [filter_keyed_map_self "new_images" FormValue.fileVal d.images,
    filter_keyed_map_ne "id_tags" "new_images" (fun tag => FormValue.textVal tag.id) d.tags
      (by decide)]
  simp [List.filter_cons]

theorem entriesFor_assemble_tags (d : ArtifactDraft) :
    entriesFor (assemble d) "id_tags" =
      d.tags.map (fun tag => ("id_tags", FormValue.textVal tag.id)) := by
  simp only [entriesFor, assemble, List.filter_append]
  rw [filter_keyed_map_self "id_tags" (fun tag => FormValue.textVal tag.id) d.tags,
    filter_keyed_map_ne "new_images" "id_tags" FormValue.fileVal d.images (by decide)]
  simp [List.filter_cons]

theorem entriesFor_assemble_object (d : ArtifactDraft) :
    entriesFor (assemble d) "model[new_object]" =
      [("model[new_object]", slotValue d.object)] := by
  simp only [entriesFor, assemble, List.filter_append]
  rw [filter_keyed_map_ne "new_images" "model[new_object]" FormValue.fileVal d.images
      (by decide),
    filter_keyed_map_ne "id_tags" "model[new_object]" (fun tag => FormValue.textVal tag.id)
      d.tags (by decide)]
  simp [List.filter_cons]

theorem entriesFor_assemble_texture (d : ArtifactDraft) :
    entriesFor (assemble d) "model[new_texture]" =
      [("model[new_texture]", slotValue d.texture)] := by
  simp only [entriesFor, assemble, List.filter_append]
  rw [filter_keyed_map_ne "new_images" "model[new_texture]" FormValue.fileVal d.images
      (by decide),
    filter_keyed_map_ne "id_tags" "model[new_texture]" (fun tag => FormValue.textVal tag.id)
      d.tags (by decide)]
  simp [List.filter_cons]

theorem entriesFor_assemble_material (d : ArtifactDraft) :
    entriesFor (assemble d) "model[new_material]" =
      [("model[new_material]", slotValue d.material)] := by
  simp only [entriesFor, assemble, List.filter_append]
  rw [filter_keyed_map_ne "new_images" "model[new_material]" FormValue.fileVal d.images
      (by decide),
    filter_keyed_map_ne "id_tags" "model[new_material]" (fun tag => FormValue.textVal tag.id)
      d.tags (by decide)]
  simp [List.filter_cons]

theorem entriesFor_assemble_thumbnail (d : ArtifactDraft) :
    entriesFor (assemble d) "new_thumbnail" =
      [("new_thumbnail", slotValue d.thumbnail)] := by
  simp only [entriesFor, assemble, List.filter_append]
  rw [filter_keyed_map_ne "new_images" "new_thumbnail" FormValue.fileVal d.images (by decide),
    filter_keyed_map_ne "id_tags" "new_thumbnail" (fun tag => FormValue.textVal tag.id) d.tags
      (by decide)]
  simp [List.filter_cons]

theorem entriesFor_assemble_description (d : ArtifactDraft) :
    entriesFor (assemble d) "description" =
      [("description", FormValue.textVal d.description)] := by
  simp only [entriesFor, assemble, List.filter_append]
  rw [filter_keyed_map_ne "new_images" "description" FormValue.fileVal d.images (by decide),
    filter_keyed_map_ne "id_tags" "description" (fun tag => FormValue.textVal tag.id) d.tags
      (by decide)]
  simp [List.filter_cons]

theorem entriesFor_assemble_shape (d : ArtifactDraft) :
    entriesFor (assemble d) "id_shape" =
      [("id_shape", FormValue.textVal d.shape.id)] := by
  simp only [entriesFor, assemble, List.filter_append]
  rw [filter_keyed_map_ne "new_images" "id_shape" FormValue.fileVal d.images (by decide),
    filter_keyed_map_ne "id_tags" "id_shape" (fun tag => FormValue.textVal tag.id) d.tags
      (by decide)]
  simp [List.filter_cons]

theorem entriesFor_assemble_culture (d : ArtifactDraft) :
    entriesFor (assemble d) "id_culture" =
      [("id_culture", FormValue.textVal d.culture.id)] := by
  simp only [entriesFor, assemble, List.filter_append]
  rw [filter_keyed_map_ne "new_images" "id_culture" FormValue.fileVal d.images (by decide),
    filter_keyed_map_ne "id_tags" "id_culture" (fun tag => FormValue.textVal tag.id) d.tags
      (by decide)]
  simp [List.filter_cons]

/-- Claim C1: for every draft state, the derived flag modelRequired is true
iff at least one of the three model-part slots (object, texture, material)
holds an actual file; the equivalence holds at form mount and is
re-established by the reactive recomputation after every draft mutation,
which is the only writer of the flag. -/
theorem C1_modelRequired_derived (s : FormState) (m : DraftMutation) :
    (initialFormState.modelRequired = true ↔
      (initialFormState.draft.object.isFile = true ∨
       initialFormState.draft.texture.isFile = true ∨
       initialFormState.draft.material.isFile = true)) ∧
    ((stepForm s m).modelRequired = true ↔
      ((stepForm s m).draft.object.isFile = true ∨
       (stepForm s m).draft.texture.isFile = true ∨
       (stepForm s m).draft.material.isFile = true)) := by
  constructor
  · decide
  · simp [stepForm, recomputeModelRequired, Bool.or_eq_true, or_assoc]

/-- Claim C2: with the modelRequired flag set, a draft in which any of the
three model slots does not hold an actual file fails the submission gate
with IncompleteModelSet: its alert is raised and no upload request is made. -/
theorem C2_incomplete_model_rejected (mr : Bool) (d : ArtifactDraft)
    (resp : UploadResult) (h1 : mr = true)
    (h2 : d.object.isFile = false ∨ d.texture.isFile = false ∨
      d.material.isFile = false) :
    submissionGate mr d = some ValidationError.IncompleteModelSet ∧
    (createSubmit mr d resp).request = none ∧
    (createSubmit mr d resp).alerts = [incompleteModelMsg] := by
  subst h1
  have hg : submissionGate true d = some ValidationError.IncompleteModelSet := by
    rcases h2 with h | h | h <;> simp [submissionGate, h]
  exact ⟨hg, by simp [createSubmit, hg], by simp [createSubmit, hg]⟩

/-- The claim C2 rejection exhibited on a concrete draft holding an object
file and a texture file but no material file. -/
theorem C2_incomplete_model_rejected_witness :
    (true = true ∧
     (twoFileDraft.object.isFile = false ∨ twoFileDraft.texture.isFile = false ∨
      twoFileDraft.material.isFile = false)) ∧
    (submissionGate true twoFileDraft = some ValidationError.IncompleteModelSet ∧
     (createSubmit true twoFileDraft UploadResult.transportFailure).request = none ∧
     (createSubmit true twoFileDraft UploadResult.transportFailure).alerts =
       [incompleteModelMsg]) :=
  ⟨⟨rfl, by decide⟩,
   C2_incomplete_model_rejected true twoFileDraft UploadResult.transportFailure rfl
     (by decide)⟩

/-- Claim C3: with the modelRequired flag unset, a draft with an empty image
list fails the submission gate with NoAssetProvided (its alert is raised and
no upload request is made), while any draft with at least one image passes
the gate. -/
theorem C3_no_asset_rejected (mr : Bool) (d : ArtifactDraft)
    (resp : UploadResult) (h1 : mr = false) :
    (d.images = [] →
      submissionGate mr d = some ValidationError.NoAssetProvided ∧
      (createSubmit mr d resp).request = none ∧
      (createSubmit mr d resp).alerts = [noImagesMsg]) ∧
    (d.images ≠ [] → submissionGate mr d = none) := by
  subst h1
  constructor
  · intro hi
    have hg : submissionGate false d = some ValidationError.NoAssetProvided := by
      simp [submissionGate, hi]
    exact ⟨hg, by simp [createSubmit, hg], by simp [createSubmit, hg]⟩
  · intro hi
    simp [submissionGate, List.length_eq_zero, hi]

/-- The claim C3 rejection exhibited on the initial draft, whose image list
is empty. -/
theorem C3_no_asset_rejected_witness :
    false = false ∧
    ((initialDraft.images = [] →
       submissionGate false initialDraft = some ValidationError.NoAssetProvided ∧
       (createSubmit false initialDraft (UploadResult.success "9")).request = none ∧
       (createSubmit false initialDraft (UploadResult.success "9")).alerts =
         [noImagesMsg]) ∧
     (initialDraft.images ≠ [] → submissionGate false initialDraft = none)) :=
  ⟨rfl, C3_no_asset_rejected false initialDraft (UploadResult.success "9") rfl⟩

/-- Claim C4: on every draft passing the submission gate, the assembled
multipart body emits its field names in the fixed deterministic order
model object, texture, material, thumbnail, one new_images entry per image
in sequence order, description, the shape id, the culture id, and one
id_tags entry per selected tag in selection order; the new_images and
id_tags entry counts equal the image and tag counts. -/
theorem C4_assemble_order (d : ArtifactDraft)
    (h : submissionGate (recomputeModelRequired d) d = none) :
    (assemble d).map Prod.fst = assembleKeySpec d ∧
    countKey (assemble d) "new_images" = d.images.length ∧
    countKey (assemble d) "id_tags" = d.tags.length ∧
    entriesFor (assemble d) "new_images" =
      d.images.map (fun image => ("new_images", FormValue.fileVal image)) ∧
    entriesFor (assemble d) "id_tags" =
      d.tags.map (fun tag => ("id_tags", FormValue.textVal tag.id)) ∧
    entriesFor (assemble d) "description" =
      [("description", FormValue.textVal d.description)] ∧
    entriesFor (assemble d) "id_shape" =
      [("id_shape", FormValue.textVal d.shape.id)] ∧
    entriesFor (assemble d) "id_culture" =
      [("id_culture", FormValue.textVal d.culture.id)] := by
  refine ⟨?_, ?_, ?_, entriesFor_assemble_images d, entriesFor_assemble_tags d,
    entriesFor_assemble_description d, entriesFor_assemble_shape d,
    entriesFor_assemble_culture d⟩
  · simp only [assemble, assembleKeySpec, List.map_append, List.map_cons, List.map_nil,
      map_fst_keyed]
  · rw [countKey, entriesFor_assemble_images d, List.length_map]
  · rw [countKey, entriesFor_assemble_tags d, List.length_map]

/-- The claim C4 guarantees exhibited on a concrete gate-passing draft with
two images and three tags: exactly two new_images entries and exactly three
id_tags entries come out. -/
theorem C4_assemble_order_witness :
    submissionGate (recomputeModelRequired sampleImageDraft) sampleImageDraft = none ∧
    ((assemble sampleImageDraft).map Prod.fst = assembleKeySpec sampleImageDraft ∧
     countKey (assemble sampleImageDraft) "new_images" =
       sampleImageDraft.images.length ∧
     countKey (assemble sampleImageDraft) "id_tags" = sampleImageDraft.tags.length ∧
     entriesFor (assemble sampleImageDraft) "new_images" =
       sampleImageDraft.images.map
         (fun image => ("new_images", FormValue.fileVal image)) ∧
     entriesFor (assemble sampleImageDraft) "id_tags" =
       sampleImageDraft.tags.map
         (fun tag => ("id_tags", FormValue.textVal tag.id)) ∧
     entriesFor (assemble sampleImageDraft) "description" =
       [("description", FormValue.textVal sampleImageDraft.description)] ∧
     entriesFor (assemble sampleImageDraft) "id_shape" =
       [("id_shape", FormValue.textVal sampleImageDraft.shape.id)] ∧
     entriesFor (assemble sampleImageDraft) "id_culture" =
       [("id_culture", FormValue.textVal sampleImageDraft.culture.id)]) ∧
    countKey (assemble sampleImageDraft) "new_images" = 2 ∧
    countKey (assemble sampleImageDraft) "id_tags" = 3 :=
  ⟨by decide, C4_assemble_order sampleImageDraft (by decide), by decide, by decide⟩

/-- Claim C5 as stated is false on the code: with no recorded fromLocation
the resolver's destination is the root route "/", not the catalog home
route "/catalog". -/
theorem C5_resolve_default_counterexample :
    (resolveDestination none).route = "/" ∧
    (resolveDestination none).route ≠ "/catalog" := by
  decide

/-- Claim C5 (amended): when no fromLocation was recorded before
authentication was demanded, the post-login redirect resolver returns the
root route "/" as the navigation destination, replacing the current history
entry. -/
theorem C5_resolve_default_root :
    resolveDestination none = NavAction.replace "/" := rfl

/-- Claim C6: for every recorded fromLocation whose path contains the
password-recovery segment, the post-login redirect resolver forces the
destination to the home route "/" instead of returning the recorded path. -/
theorem C6_reset_forced_home (loc : LocationRef)
    (h : includesSegment loc.pathname "/reset-password" = true) :
    resolveDestination (some loc) = NavAction.push "/" ∧
    (resolveDestination (some loc)).route ≠ loc.pathname := by
  have hd : resolveDestination (some loc) = NavAction.push "/" := by
    simp [resolveDestination, h]
  refine ⟨hd, ?_⟩
  rw [hd]
  show "/" ≠ loc.pathname
  intro hp
  rw [← hp] at h
  exact absurd h (by decide)

/-- The claim C6 forcing exhibited on the recorded path
"/reset-password/abc". -/
theorem C6_reset_forced_home_witness :
    includesSegment "/reset-password/abc" "/reset-password" = true ∧
    (resolveDestination (some { pathname := "/reset-password/abc" }) =
       NavAction.push "/" ∧
     (resolveDestination (some { pathname := "/reset-password/abc" })).route ≠
       "/reset-password/abc") :=
  ⟨by decide, C6_reset_forced_home { pathname := "/reset-password/abc" } (by decide)⟩

/-- Claim C7: for every recorded fromLocation whose path does not contain
the password-recovery segment, the post-login redirect resolver returns
exactly that location's path, and the navigation replaces the current
history entry. -/
theorem C7_origin_restored (loc : LocationRef)
    (h : includesSegment loc.pathname "/reset-password" = false) :
    resolveDestination (some loc) = NavAction.replace loc.pathname := by
  simp [resolveDestination, h]

/-- The claim C7 restoration exhibited on the recorded path "/catalog/42". -/
theorem C7_origin_restored_witness :
    includesSegment "/catalog/42" "/reset-password" = false ∧
    resolveDestination (some { pathname := "/catalog/42" }) =
      NavAction.replace "/catalog/42" :=
  ⟨by decide, C7_origin_restored { pathname := "/catalog/42" } (by decide)⟩

/-- Claim C8: every failure path leaves the draft and the login form
unchanged, and the login flow surfaces a message on each of its failure
paths; but the upload flow of CreateArtifact attaches no rejection handler
to the fetch promise itself, so a transport failure during the upload
surfaces no message and escapes handleSubmit uncaught, diverging from the
claim on that path. -/
theorem C8_transport_failure_unhandled :
    (createSubmit false retryDraft UploadResult.transportFailure).alerts = [] ∧
    (createSubmit false retryDraft UploadResult.transportFailure).uncaught = true ∧
    (createSubmit false retryDraft UploadResult.transportFailure).draft = retryDraft ∧
    (createSubmit false retryDraft (UploadResult.rejection "boom")).alerts = ["boom"] ∧
    (createSubmit false retryDraft (UploadResult.rejection "boom")).draft = retryDraft ∧
    (createSubmit false retryDraft (UploadResult.rejection "boom")).uncaught = false ∧
    (createSubmit true initialDraft UploadResult.transportFailure).draft = initialDraft ∧
    (loginSubmit { username := "u", password := "p" } none
        AuthResult.transportFailure).form = { username := "u", password := "p" } ∧
    (loginSubmit { username := "u", password := "p" } none
        AuthResult.transportFailure).alerts = [authErrorMsg] ∧
    (loginSubmit { username := "u", password := "p" } none
        (AuthResult.failure "bad")).alerts = ["bad"] ∧
    (loginSubmit { username := "u", password := "p" } none
        (AuthResult.failure "bad")).form = { username := "u", password := "p" } := by
  decide

/-- Claim C9: the two validation branches are mutually exclusive on the
derived model-required flag: a draft with at least one but not all three
model files is rejected with IncompleteModelSet and nothing is uploaded,
whatever its image list holds, while a NoAssetProvided rejection can only
arise on a draft with no model part attached and no images. -/
theorem C9_branches_exclusive (d d2 : ArtifactDraft) (resp : UploadResult)
    (h1 : d.object.isFile = true ∨ d.texture.isFile = true ∨
      d.material.isFile = true)
    (h2 : ¬(d.object.isFile = true ∧ d.texture.isFile = true ∧
      d.material.isFile = true))
    (h3 : submissionGate (recomputeModelRequired d2) d2 =
      some ValidationError.NoAssetProvided) :
    submissionGate (recomputeModelRequired d) d =
      some ValidationError.IncompleteModelSet ∧
    (createSubmit (recomputeModelRequired d) d resp).request = none ∧
    (d2.object.isFile = false ∧ d2.texture.isFile = false ∧
      d2.material.isFile = false ∧ d2.images = []) := by
  have hg : submissionGate (recomputeModelRequired d) d =
      some ValidationError.IncompleteModelSet := by
    cases ho : d.object.isFile <;> cases ht : d.texture.isFile <;>
      cases hm : d.material.isFile <;>
      simp_all [submissionGate, recomputeModelRequired]
  refine ⟨hg, by simp [createSubmit, hg], ?_⟩
  cases ho : d2.object.isFile <;> cases ht : d2.texture.isFile <;>
    cases hm : d2.material.isFile <;>
    simp_all [submissionGate, recomputeModelRequired, List.length_eq_zero]

/-- The claim C9 exclusivity exhibited on a concrete draft holding an object
file and one image (rejected as an incomplete model set despite the image)
and on the initial draft (the only way to a NoAssetProvided rejection). -/
theorem C9_branches_exclusive_witness :
    ((mixedDraft.object.isFile = true ∨ mixedDraft.texture.isFile = true ∨
      mixedDraft.material.isFile = true) ∧
     ¬(mixedDraft.object.isFile = true ∧ mixedDraft.texture.isFile = true ∧
       mixedDraft.material.isFile = true) ∧
     submissionGate (recomputeModelRequired initialDraft) initialDraft =
       some ValidationError.NoAssetProvided) ∧
    (submissionGate (recomputeModelRequired mixedDraft) mixedDraft =
       some ValidationError.IncompleteModelSet ∧
     (createSubmit (recomputeModelRequired mixedDraft) mixedDraft
        (UploadResult.success "1")).request = none ∧
     (initialDraft.object.isFile = false ∧ initialDraft.texture.isFile = false ∧
      initialDraft.material.isFile = false ∧ initialDraft.images = [])) :=
  ⟨⟨by decide, by decide, by decide⟩,
   C9_branches_exclusive mixedDraft initialDraft (UploadResult.success "1")
     (by decide) (by decide) (by decide)⟩

/-- Claim C10: on every draft passing the submission gate, the assembled
multipart body carries exactly one entry for each of the three model field
names and for new_thumbnail, holding the slot's file when one is attached
and the empty placeholder object otherwise, so an absent thumbnail or model
file is not reflected by omission of its field. -/
theorem C10_constant_entries (d : ArtifactDraft)
    (h : submissionGate (recomputeModelRequired d) d = none) :
    entriesFor (assemble d) "model[new_object]" =
      [("model[new_object]", slotValue d.object)] ∧
    entriesFor (assemble d) "model[new_texture]" =
      [("model[new_texture]", slotValue d.texture)] ∧
    entriesFor (assemble d) "model[new_material]" =
      [("model[new_material]", slotValue d.material)] ∧
    entriesFor (assemble d) "new_thumbnail" =
      [("new_thumbnail", slotValue d.thumbnail)] ∧
    (d.object = Slot.placeholder → slotValue d.object = FormValue.placeholderVal) ∧
    (d.thumbnail = Slot.placeholder →
      slotValue d.thumbnail = FormValue.placeholderVal) :=
  ⟨entriesFor_assemble_object d, entriesFor_assemble_texture d,
   entriesFor_assemble_material d, entriesFor_assemble_thumbnail d,
   fun hp => by rw [hp]; rfl, fun hp => by rw [hp]; rfl⟩

/-- The claim C10 constants exhibited on a concrete gate-passing draft whose
model slots and thumbnail are all placeholders. -/
theorem C10_constant_entries_witness :
    submissionGate (recomputeModelRequired sampleImageDraft) sampleImageDraft = none ∧
    (entriesFor (assemble sampleImageDraft) "model[new_object]" =
       [("model[new_object]", slotValue sampleImageDraft.object)] ∧
     entriesFor (assemble sampleImageDraft) "model[new_texture]" =
       [("model[new_texture]", slotValue sampleImageDraft.texture)] ∧
     entriesFor (assemble sampleImageDraft) "model[new_material]" =
       [("model[new_material]", slotValue sampleImageDraft.material)] ∧
     entriesFor (assemble sampleImageDraft) "new_thumbnail" =
       [("new_thumbnail", slotValue sampleImageDraft.thumbnail)] ∧
     (sampleImageDraft.object = Slot.placeholder →
       slotValue sampleImageDraft.object = FormValue.placeholderVal) ∧
     (sampleImageDraft.thumbnail = Slot.placeholder →
       slotValue sampleImageDraft.thumbnail = FormValue.placeholderVal)) :=
  ⟨by decide, C10_constant_entries sampleImageDraft (by decide)⟩

end Catalogo
